import Mathlib

/-!
Shallow embedding of the tool-calling backend (`backend/app/tools.py`,
`backend/app/tool_handlers.py`, `backend/app/openrouter.py`,
`backend/app/main.py`).

Python's dynamically typed values are modelled by `PyVal`; raised Python
exceptions are modelled by `Except PyErr`; the Mongo note store, the clock,
the id generator and the outbound HTTP transports are explicit fields of an
environment record, so every function of the source becomes a pure Lean
function on that environment.
-/

/-- A UTC instant, as produced by `datetime.now(timezone.utc)`. -/
structure Dt where
  year : Nat
  month : Nat
  day : Nat
  hour : Nat
  minute : Nat
  second : Nat
  micro : Nat
deriving DecidableEq, Repr

/-- Python runtime values reachable in this backend: JSON scalars and
containers plus the two opaque types (`bson.ObjectId`, `datetime`) that
`_json_safe` rewrites. Dicts are insertion-ordered association lists with
unique keys, as in Python. -/
inductive PyVal where
  | none
  | bool (b : Bool)
  | int (n : Int)
  | float (q : ℚ)
  | str (s : String)
  | list (vs : List PyVal)
  | dict (kvs : List (String × PyVal))
  | objectId (oid : String)
  | datetime (d : Dt)
deriving Repr

mutual
def PyVal.beq : PyVal → PyVal → Bool
  | .none, .none => true
  | .bool a, .bool b => a == b
  | .int a, .int b => a == b
  | .float a, .float b => a == b
  | .str a, .str b => a == b
  | .list a, .list b => PyVal.beqList a b
  | .dict a, .dict b => PyVal.beqDict a b
  | .objectId a, .objectId b => a == b
  | .datetime a, .datetime b => a == b
  | _, _ => false

def PyVal.beqList : List PyVal → List PyVal → Bool
  | [], [] => true
  | a :: as, b :: bs => PyVal.beq a b && PyVal.beqList as bs
  | _, _ => false

def PyVal.beqDict : List (String × PyVal) → List (String × PyVal) → Bool
  | [], [] => true
  | (k1, v1) :: as, (k2, v2) :: bs => k1 == k2 && PyVal.beq v1 v2 && PyVal.beqDict as bs
  | _, _ => false
end

instance : BEq PyVal := ⟨PyVal.beq⟩

mutual
def PyVal.beq_iff : ∀ a b : PyVal, PyVal.beq a b = true ↔ a = b
  | .none, b => by cases b <;> simp [PyVal.beq]
  | .bool a, b => by cases b <;> simp [PyVal.beq]
  | .int a, b => by cases b <;> simp [PyVal.beq]
  | .float a, b => by cases b <;> simp [PyVal.beq]
  | .str a, b => by cases b <;> simp [PyVal.beq]
  | .list as, b => by
      cases b <;> simp [PyVal.beq]
      exact PyVal.beqList_iff as _
  | .dict as, b => by
      cases b <;> simp [PyVal.beq]
      exact PyVal.beqDict_iff as _
  | .objectId a, b => by cases b <;> simp [PyVal.beq]
  | .datetime a, b => by cases b <;> simp [PyVal.beq]

def PyVal.beqList_iff : ∀ as bs : List PyVal, PyVal.beqList as bs = true ↔ as = bs
  | [], bs => by cases bs <;> simp [PyVal.beqList]
  | a :: as, bs => by
      cases bs with
      | nil => simp [PyVal.beqList]
      | cons b bs =>
        simp only [PyVal.beqList, Bool.and_eq_true, List.cons.injEq]
        rw [PyVal.beq_iff a b, PyVal.beqList_iff as bs]

def PyVal.beqDict_iff :
    ∀ as bs : List (String × PyVal), PyVal.beqDict as bs = true ↔ as = bs
  | [], bs => by cases bs <;> simp [PyVal.beqDict]
  | (k1, v1) :: as, bs => by
      cases bs with
      | nil => simp [PyVal.beqDict]
      | cons b bs =>
        obtain ⟨k2, v2⟩ := b
        simp only [PyVal.beqDict, Bool.and_eq_true, List.cons.injEq, beq_iff_eq,
          Prod.mk.injEq]
        rw [PyVal.beq_iff v1 v2, PyVal.beqDict_iff as bs]
end

instance : DecidableEq PyVal := fun a b =>
  decidable_of_iff (PyVal.beq a b = true) (PyVal.beq_iff a b)

/-- Python exceptions that can escape the modelled code. -/
inductive PyErr where
  | valueError (msg : String)
  | typeError (msg : String)
  | attributeError (msg : String)
  | indexError (msg : String)
deriving DecidableEq, Repr

/-- Python truthiness (`bool(x)`). -/
def py_truthy : PyVal → Bool
  | .none => false
  | .bool b => b
  | .int n => n != 0
  | .float q => q != 0
  | .str s => s != ""
  | .list vs => !vs.isEmpty
  | .dict kvs => !kvs.isEmpty
  | .objectId _ => true
  | .datetime _ => true

/-- Python `a or b`. -/
def py_or (a b : PyVal) : PyVal := if py_truthy a then a else b

/-- Python `str.strip()`: remove leading and trailing whitespace. (Defined
on the character list so that it reduces definitionally.) -/
def pyStrip (s : String) : String :=
  String.mk (((s.toList.dropWhile Char.isWhitespace).reverse.dropWhile
    Char.isWhitespace).reverse)

/-- Python `str.lower()` (ASCII). -/
def pyLower (s : String) : String := String.mk (s.toList.map Char.toLower)

def pad2 (n : Nat) : String := if n < 10 then "0" ++ toString n else toString n

def pad4 (n : Nat) : String :=
  if n < 10 then "000" ++ toString n
  else if n < 100 then "00" ++ toString n
  else if n < 1000 then "0" ++ toString n
  else toString n

def pad6 (n : Nat) : String :=
  let s := toString n
  String.mk (List.replicate (6 - s.length) '0') ++ s

/-- `datetime.isoformat()` for a UTC-aware instant. -/
def Dt.isoformat (d : Dt) : String :=
  pad4 d.year ++ "-" ++ pad2 d.month ++ "-" ++ pad2 d.day ++ "T" ++
    pad2 d.hour ++ ":" ++ pad2 d.minute ++ ":" ++ pad2 d.second ++
    (if d.micro = 0 then "" else "." ++ pad6 d.micro) ++ "+00:00"

mutual
/-- Python `repr(x)` for the values we model (approximate for floats,
which the claims never exercise). -/
def pyRepr : PyVal → String
  | .none => "None"
  | .bool true => "True"
  | .bool false => "False"
  | .int n => toString n
  | .float q => toString q
  | .str s => "\x27" ++ s ++ "\x27"
  | .list vs => "[" ++ pyReprList vs ++ "]"
  | .dict kvs => "\x7b" ++ pyReprDict kvs ++ "\x7d"
  | .objectId oid => "ObjectId(\x27" ++ oid ++ "\x27)"
  | .datetime d => "datetime.datetime(" ++ toString d.year ++ ", " ++ toString d.month ++
      ", " ++ toString d.day ++ ")"

def pyReprList : List PyVal → String
  | [] => ""
  | [v] => pyRepr v
  | v :: vs => pyRepr v ++ ", " ++ pyReprList vs

def pyReprDict : List (String × PyVal) → String
  | [] => ""
  | [(k, v)] => "\x27" ++ k ++ "\x27: " ++ pyRepr v
  | (k, v) :: kvs => "\x27" ++ k ++ "\x27: " ++ pyRepr v ++ ", " ++ pyReprDict kvs
end

/-- Python `str(x)`. -/
def py_str : PyVal → String
  | .str s => s
  | .objectId oid => oid
  | .datetime d =>
      pad4 d.year ++ "-" ++ pad2 d.month ++ "-" ++ pad2 d.day ++ " " ++
        pad2 d.hour ++ ":" ++ pad2 d.minute ++ ":" ++ pad2 d.second ++
        (if d.micro = 0 then "" else "." ++ pad6 d.micro) ++ "+00:00"
  | v => pyRepr v

/-- `d.get(k)` on a dict whose entries are `kvs` (default `None`). -/
def argsGet (kvs : List (String × PyVal)) (k : String) : PyVal :=
  (kvs.lookup k).getD PyVal.none

/-- `d.get(k, default)` on a dict whose entries are `kvs`. -/
def argsGetD (kvs : List (String × PyVal)) (k : String) (d : PyVal) : PyVal :=
  (kvs.lookup k).getD d

/-- `v.get(k)`: raises `AttributeError` when `v` is not a dict, as Python does. -/
def py_get (v : PyVal) (k : String) : Except PyErr PyVal :=
  match v with
  | .dict kvs => .ok (argsGet kvs k)
  | _ => .error (.attributeError ("object has no attribute get: " ++ k))

/-- Python iteration `for x in v`: lists yield elements, strings yield
one-character strings, dicts yield keys; anything else raises `TypeError`. -/
def py_iter (v : PyVal) : Except PyErr (List PyVal) :=
  match v with
  | .list vs => .ok vs
  | .str s => .ok (s.toList.map (fun c => PyVal.str (String.singleton c)))
  | .dict kvs => .ok (kvs.map (fun kv => PyVal.str kv.1))
  | _ => .error (.typeError "object is not iterable")

/-- `v[0]`: head of a list or first character of a string; raises otherwise. -/
def py_index0 (v : PyVal) : Except PyErr PyVal :=
  match v with
  | .list [] => .error (.indexError "list index out of range")
  | .list (x :: _) => .ok x
  | .str s =>
      match s.toList with
      | [] => .error (.indexError "string index out of range")
      | c :: _ => .ok (.str (String.singleton c))
  | _ => .error (.typeError "object is not subscriptable")

/-- Python `s[:n]` on a string: the first `n` code points. -/
def strTake (s : String) (n : Nat) : String := String.mk (s.toList.take n)

/-- `v[:n]` for `n ≥ 0`: slices lists and strings; raises otherwise. -/
def py_take (v : PyVal) (n : Nat) : Except PyErr PyVal :=
  match v with
  | .list vs => .ok (.list (vs.take n))
  | .str s => .ok (.str (strTake s n))
  | _ => .error (.typeError "object is not subscriptable")

/-- The integer literal grammar accepted by Python `int(str)`:
optional surrounding whitespace, an optional sign, then decimal digits. -/
def pyIntOfString (s : String) : Option Int :=
  let chars := (pyStrip s).toList
  let signedDigits : Int × List Char :=
    match chars with
    | '-' :: rest => (-1, rest)
    | '+' :: rest => (1, rest)
    | _ => (1, chars)
  match signedDigits with
  | (sign, digits) =>
    if digits.isEmpty then Option.none
    else if digits.all Char.isDigit then
      some (sign * Int.ofNat (digits.foldl (fun acc c => acc * 10 + (c.toNat - 48)) 0))
    else Option.none

/-- Truncation toward zero, as Python `int(float)`. -/
def ratTrunc (q : ℚ) : Int := if 0 ≤ q then ⌊q⌋ else ⌈q⌉

/-- Python `int(v)`: `ValueError` on a malformed string, `TypeError` on a
value of non-numeric type. -/
def py_int (v : PyVal) : Except PyErr Int :=
  match v with
  | .bool b => .ok (if b then 1 else 0)
  | .int n => .ok n
  | .float q => .ok (ratTrunc q)
  | .str s =>
      match pyIntOfString s with
      | some n => .ok n
      | Option.none => .error (.valueError ("invalid literal for int with base 10: " ++ s))
  | _ => .error (.typeError "int argument must be a string or a number")

mutual
/-- `_json_safe` (`backend/app/tools.py` lines 19-28): rewrites `ObjectId`s
to their string form and `datetime`s to ISO-8601 strings, recursing into
lists and dicts, leaving everything else unchanged. -/
def json_safe : PyVal → PyVal
  | .objectId oid => .str oid
  | .datetime d => .str d.isoformat
  | .list vs => .list (json_safe_list vs)
  | .dict kvs => .dict (json_safe_dict kvs)
  | v => v

def json_safe_list : List PyVal → List PyVal
  | [] => []
  | v :: vs => json_safe v :: json_safe_list vs

def json_safe_dict : List (String × PyVal) → List (String × PyVal)
  | [] => []
  | (k, v) :: kvs => (k, json_safe v) :: json_safe_dict kvs
end


/-! ### A model of `json.loads` / `json.dumps` (Python stdlib `json`) -/

def jsonWs (c : Char) : Bool := c = ' ' || c = '\t' || c = '\n' || c = '\r'

def skipWs : List Char → List Char
  | [] => []
  | c :: rest => if jsonWs c then skipWs rest else c :: rest

def hexVal (c : Char) : Option Nat :=
  if c.isDigit then some (c.toNat - 48)
  else if 'a' ≤ c ∧ c ≤ 'f' then some (c.toNat - 87)
  else if 'A' ≤ c ∧ c ≤ 'F' then some (c.toNat - 55)
  else Option.none

/-- A JSON string body (after the opening quote), with strict escape
handling as in Python's default decoder. -/
def parseJString : Nat → List Char → Option (String × List Char)
  | 0, _ => Option.none
  | _, [] => Option.none
  | _ + 1, '"' :: rest => some ("", rest)
  | fuel + 1, '\\' :: rest =>
    let dec : Option (Char × List Char) :=
      match rest with
      | [] => Option.none
      | e :: rest2 =>
        if e = '"' then some ('"', rest2)
        else if e = '\\' then some ('\\', rest2)
        else if e = '/' then some ('/', rest2)
        else if e = 'b' then some ('\x08', rest2)
        else if e = 'f' then some ('\x0c', rest2)
        else if e = 'n' then some ('\n', rest2)
        else if e = 'r' then some ('\r', rest2)
        else if e = 't' then some ('\t', rest2)
        else if e = 'u' then
          match rest2 with
          | a :: b :: c :: d :: rest3 =>
            match hexVal a, hexVal b, hexVal c, hexVal d with
            | some ha, some hb, some hc, some hd =>
                some (Char.ofNat (((ha * 16 + hb) * 16 + hc) * 16 + hd), rest3)
            | _, _, _, _ => Option.none
          | _ => Option.none
        else Option.none
    match dec with
    | some (c, r) =>
        (parseJString fuel r).map (fun p => (String.singleton c ++ p.1, p.2))
    | Option.none => Option.none
  | fuel + 1, c :: rest =>
    if c.toNat < 32 then Option.none
    else (parseJString fuel rest).map (fun p => (String.singleton c ++ p.1, p.2))

def takeDigits : List Char → List Char × List Char
  | [] => ([], [])
  | c :: rest =>
    if c.isDigit then
      match takeDigits rest with
      | (d, r) => (c :: d, r)
    else ([], c :: rest)

def digitsVal (ds : List Char) : Nat := ds.foldl (fun a c => a * 10 + (c.toNat - 48)) 0

/-- A JSON number, split into integer part, optional fraction, optional
exponent; yields a Python `int` when there is neither fraction nor
exponent, a `float` otherwise. -/
def parseJNumber (cs : List Char) : Option (PyVal × List Char) :=
  let signSplit : Bool × List Char :=
    match cs with
    | '-' :: rest => (true, rest)
    | _ => (false, cs)
  match signSplit with
  | (neg, cs1) =>
    match takeDigits cs1 with
    | ([], _) => Option.none
    | (ints, cs2) =>
      if 1 < ints.length ∧ ints.head? = some '0' then Option.none
      else
        let fracSplit : Option (List Char × List Char) :=
          match cs2 with
          | '.' :: rest =>
            match takeDigits rest with
            | ([], _) => Option.none
            | (fds, r) => some (fds, r)
          | _ => some ([], cs2)
        match fracSplit with
        | Option.none => Option.none
        | some (fds, cs3) =>
          let expSplit : Option (Int × List Char) :=
            match cs3 with
            | 'e' :: rest | 'E' :: rest =>
              let esign : Int × List Char :=
                match rest with
                | '-' :: r2 => (-1, r2)
                | '+' :: r2 => (1, r2)
                | _ => (1, rest)
              match esign with
              | (es, r2) =>
                match takeDigits r2 with
                | ([], _) => Option.none
                | (eds, r3) => some (es * Int.ofNat (digitsVal eds), r3)
            | _ => some (0, cs3)
          match expSplit with
          | Option.none => Option.none
          | some (e, cs4) =>
            let isFloat := !fds.isEmpty || cs3.length ≠ cs4.length
            let sign : Int := if neg then -1 else 1
            if isFloat then
              let mant : ℚ := (digitsVal ints : ℚ) +
                (digitsVal fds : ℚ) / ((10 : ℚ) ^ fds.length)
              some (.float ((sign : ℚ) * mant * (10 : ℚ) ^ e), cs4)
            else
              some (.int (sign * Int.ofNat (digitsVal ints)), cs4)

/-- `d[k] = v` when building a dict: a duplicate key keeps its original
position and takes the new value, as in CPython. -/
def dictInsert (kvs : List (String × PyVal)) (k : String) (v : PyVal) :
    List (String × PyVal) :=
  match kvs with
  | [] => [(k, v)]
  | (k1, v1) :: rest => if k1 = k then (k1, v) :: rest else (k1, v1) :: dictInsert rest k v

mutual
def parseJValue : Nat → List Char → Option (PyVal × List Char)
  | 0, _ => Option.none
  | fuel + 1, cs =>
    match skipWs cs with
    | 'n' :: 'u' :: 'l' :: 'l' :: rest => some (.none, rest)
    | 't' :: 'r' :: 'u' :: 'e' :: rest => some (.bool true, rest)
    | 'f' :: 'a' :: 'l' :: 's' :: 'e' :: rest => some (.bool false, rest)
    | '"' :: rest => (parseJString (fuel + 1) rest).map (fun p => (PyVal.str p.1, p.2))
    | '[' :: rest =>
      (match skipWs rest with
       | ']' :: rest2 => some (.list [], rest2)
       | cs2 => parseJArrayElems fuel cs2 [])
    | '{' :: rest =>
      (match skipWs rest with
       | '}' :: rest2 => some (.dict [], rest2)
       | cs2 => parseJObjectItems fuel cs2 [])
    | cs2 => parseJNumber cs2

def parseJArrayElems : Nat → List Char → List PyVal → Option (PyVal × List Char)
  | 0, _, _ => Option.none
  | fuel + 1, cs, acc =>
    match parseJValue fuel cs with
    | Option.none => Option.none
    | some (v, rest) =>
      match skipWs rest with
      | ',' :: rest2 => parseJArrayElems fuel rest2 (acc ++ [v])
      | ']' :: rest2 => some (.list (acc ++ [v]), rest2)
      | _ => Option.none

def parseJObjectItems : Nat → List Char → List (String × PyVal) →
    Option (PyVal × List Char)
  | 0, _, _ => Option.none
  | fuel + 1, cs, acc =>
    match skipWs cs with
    | '"' :: rest =>
      match parseJString (fuel + 1) rest with
      | Option.none => Option.none
      | some (k, rest2) =>
        match skipWs rest2 with
        | ':' :: rest3 =>
          match parseJValue fuel rest3 with
          | Option.none => Option.none
          | some (v, rest4) =>
            match skipWs rest4 with
            | ',' :: rest5 => parseJObjectItems fuel rest5 (dictInsert acc k v)
            | '}' :: rest5 => some (.dict (dictInsert acc k v), rest5)
            | _ => Option.none
        | _ => Option.none
    | _ => Option.none
end

/-- `json.loads`: parse one JSON document and require that only whitespace
follows it; `Option.none` models a raised `json.JSONDecodeError`. -/
def json_loads (s : String) : Option PyVal :=
  match parseJValue (2 * s.length + 16) s.toList with
  | Option.none => Option.none
  | some (v, rest) => if (skipWs rest).isEmpty then some v else Option.none

def hex4 (n : Nat) : String :=
  let digit (k : Nat) : Char :=
    if k < 10 then Char.ofNat (48 + k) else Char.ofNat (87 + k)
  String.mk [digit (n / 4096 % 16), digit (n / 256 % 16), digit (n / 16 % 16), digit (n % 16)]

def jEscapeChar (c : Char) : String :=
  if c = '"' then "\\\""
  else if c = '\\' then "\\\\"
  else if c = '\n' then "\\n"
  else if c = '\r' then "\\r"
  else if c = '\t' then "\\t"
  else if c = '\x08' then "\\b"
  else if c = '\x0c' then "\\f"
  else if c.toNat < 32 then "\\u" ++ hex4 c.toNat
  else String.singleton c

def jEscape (s : String) : String := String.join (s.toList.map jEscapeChar)

mutual
/-- `json.dumps(v, ensure_ascii=False)` with the default separators.
`ObjectId` / `datetime` never reach this function in the source (they are
rewritten by `_json_safe` first); they are rendered via their string form
to keep the model total. -/
def json_dumps : PyVal → String
  | .none => "null"
  | .bool true => "true"
  | .bool false => "false"
  | .int n => toString n
  | .float q => if q.den = 1 then toString q.num ++ ".0" else toString q
  | .str s => "\"" ++ jEscape s ++ "\""
  | .list vs => "[" ++ jd_list vs ++ "]"
  | .dict kvs => "\x7b" ++ jd_dict kvs ++ "\x7d"
  | .objectId oid => "\"" ++ jEscape oid ++ "\""
  | .datetime d => "\"" ++ jEscape d.isoformat ++ "\""

def jd_list : List PyVal → String
  | [] => ""
  | [v] => json_dumps v
  | v :: vs => json_dumps v ++ ", " ++ jd_list vs

def jd_dict : List (String × PyVal) → String
  | [] => ""
  | [(k, v)] => "\"" ++ jEscape k ++ "\": " ++ json_dumps v
  | (k, v) :: kvs => "\"" ++ jEscape k ++ "\": " ++ json_dumps v ++ ", " ++ jd_dict kvs
end

/-- `safe_parse_tool_arguments` (`backend/app/tools.py` lines 363-374). -/
def safe_parse_tool_arguments (raw_arguments : PyVal) : List (String × PyVal) :=
  match raw_arguments with
  | .dict kvs => kvs
  | .str s =>
    (match json_loads s with
     | Option.none => [("_parse_error", .str "invalid_json"), ("_raw", .str s)]
     | some (.dict kvs) => kvs
     | some _ => [("_parse_error", .str "expected_object"), ("_raw", .str s)])
  | _ => []

/-- `tool_result_message` (`backend/app/tools.py` lines 355-360). -/
def tool_result_message (tool_call_id : PyVal) (result : PyVal) : PyVal :=
  .dict [("role", .str "tool"), ("tool_call_id", tool_call_id),
         ("content", .str (json_dumps (json_safe result)))]

/-! ### The tool registry and handlers (`backend/app/tools.py`) -/

/-- A MongoDB document: key/value pairs, `_id` holding an `ObjectId`. -/
abbrev NoteDoc := List (String × PyVal)

/-- The database operations `run_tool` can issue against the note store. -/
inductive DbOp where
  | insert (doc : NoteDoc)
  | findQuery (pattern : String) (limit : Int)
  | findAll (limit : Int)
  | findOne (oid : String)
deriving DecidableEq, Repr

/-- The status/text/parsed-body triple of an `httpx.Response`;
`jsonBody = Option.none` models a body on which `.json()` raises. -/
structure HttpResp where
  status : Nat
  text : String
  jsonBody : Option PyVal
deriving DecidableEq, Repr

/-- Everything ambient that `run_tool` reads or writes: the note
collection, the ids Mongo will assign to inserts, the clock, the Serper
settings, and the outcome of the one outbound Serper call. -/
structure Env where
  notes : List NoteDoc
  nextIds : List String
  now : Dt
  serper_api_key : Option String
  serper_gl : String
  serper_hl : String
  serperResponse : Except String HttpResp
deriving Repr

/-- Result of one `run_tool` call: the returned payload or the raised
exception, the note store afterwards, and the database operations issued. -/
structure ToolOut where
  result : Except PyErr PyVal
  env : Env
  ops : List DbOp
deriving Repr

/-- Python falsiness of an `Optional[str]` settings field. -/
def keyUnset : Option String → Bool
  | Option.none => true
  | some s => s = ""

/-- `_clamp_int` (`backend/app/tools.py` lines 143-148). -/
def clamp_int (value : PyVal) (minimum maximum default : Int) : Int :=
  match py_int value with
  | .error _ => default
  | .ok parsed => max minimum (min maximum parsed)

/-- `_trim_text` (`backend/app/tools.py` lines 151-155). -/
def trim_text (value : PyVal) (max_len : Nat) : String :=
  let text := pyStrip (py_str (py_or value (.str "")))
  if text.length ≤ max_len then text else strTake text (max_len - 1) ++ "…"

/-- `_pick` (`backend/app/tools.py` lines 158-165). -/
def pick (source : PyVal) (keys : List String) : List (String × PyVal) :=
  match source with
  | .dict kvs =>
    keys.foldl (fun out k =>
      match kvs.lookup k with
      | some v => if v = PyVal.none then out else out ++ [(k, v)]
      | Option.none => out) []
  | _ => []

def errPayload (msg : String) : PyVal :=
  .dict [("ok", .bool false), ("error", .str msg)]

/-- `ObjectId.is_valid` on a string: 24 hexadecimal characters. -/
def objectIdValid (s : String) : Bool :=
  s.length = 24 && s.toList.all (fun c =>
    c.isDigit || ('a' ≤ c && c ≤ 'f') || ('A' ≤ c && c ≤ 'F'))

/-- Chronological order on instants (lexicographic on the fields). -/
def dtLe (a b : Dt) : Bool :=
  if a.year ≠ b.year then decide (a.year < b.year)
  else if a.month ≠ b.month then decide (a.month < b.month)
  else if a.day ≠ b.day then decide (a.day < b.day)
  else if a.hour ≠ b.hour then decide (a.hour < b.hour)
  else if a.minute ≠ b.minute then decide (a.minute < b.minute)
  else if a.second ≠ b.second then decide (a.second < b.second)
  else decide (a.micro ≤ b.micro)

/-- `.sort("created_at", -1)`: newest first; documents without a
`created_at` datetime sort last. -/
def docNewerEq (a b : NoteDoc) : Bool :=
  match a.lookup "created_at", b.lookup "created_at" with
  | some (.datetime da), some (.datetime db) => dtLe db da
  | some (.datetime _), _ => true
  | _, some (.datetime _) => false
  | _, _ => true

def sortNotesDesc (notes : List NoteDoc) : List NoteDoc :=
  notes.mergeSort docNewerEq

/-- Case-insensitive substring test: the `$regex` with `re.escape`d pattern
and option `i` used by the note search. -/
def strContainsCI (hay needle : String) : Bool :=
  decide (List.IsInfix (pyLower needle).toList (pyLower hay).toList)

/-- One field against the case-insensitive regex: a string matches by
substring; an array (`tags`) matches when any element does. -/
def fieldMatches (v : PyVal) (q : String) : Bool :=
  match v with
  | .str s => strContainsCI s q
  | .list vs => vs.any (fun t =>
      match t with
      | .str s => strContainsCI s q
      | _ => false)
  | _ => false

/-- The `$or` filter over title/content/tags used by `search_notes`. -/
def noteMatches (doc : NoteDoc) (q : String) : Bool :=
  fieldMatches (argsGet doc "title") q || fieldMatches (argsGet doc "content") q ||
    fieldMatches (argsGet doc "tags") q

/-- `db.notes.find(filter).sort("created_at", -1).limit(limit)`. -/
def notesFind (notes : List NoteDoc) (filter : NoteDoc → Bool) (limit : Int) :
    List NoteDoc :=
  ((sortNotesDesc notes).filter filter).take limit.toNat

/-- `db.notes.find_one({"_id": ObjectId(note_id)})`. -/
def findOneNote (notes : List NoteDoc) (oid : String) : Option NoteDoc :=
  notes.find? (fun doc => doc.lookup "_id" = some (.objectId oid))

/-- `str(doc["_id"])`. -/
def docId (doc : NoteDoc) : String := py_str (argsGet doc "_id")

/-- The note projection shared by `search_notes` / `list_notes` / `get_note`. -/
def noteOut (doc : NoteDoc) : PyVal :=
  .dict [("id", .str (docId doc)),
         ("title", argsGetD doc "title" (.str "")),
         ("content", argsGetD doc "content" (.str "")),
         ("tags", argsGetD doc "tags" (.list [])),
         ("created_at", json_safe (argsGet doc "created_at"))]

/-- One mapped `news` result (`backend/app/tools.py` lines 312-321). -/
def searchNewsItem (item : PyVal) : Except PyErr PyVal := do
  let title ← py_get item "title"
  let link ← py_get item "link"
  let snippet ← py_get item "snippet"
  let source ← py_get item "source"
  let date ← py_get item "date"
  return .dict [("title", .str (trim_text title 200)), ("link", link),
                ("snippet", .str (trim_text snippet 400)), ("source", source),
                ("date", date)]

/-- One mapped `organic` result (`backend/app/tools.py` lines 323-331). -/
def searchOrganicItem (item : PyVal) : Except PyErr PyVal := do
  let title ← py_get item "title"
  let link ← py_get item "link"
  let snippet ← py_get item "snippet"
  let position ← py_get item "position"
  return .dict [("title", .str (trim_text title 200)), ("link", link),
                ("snippet", .str (trim_text snippet 400)), ("position", position)]

/-- `(data.get("news"/"organic") or [])[:num_results]`, mapped. -/
def searchWebItems (data : PyVal) (search_type : String) (num : Nat) :
    Except PyErr (List PyVal) := do
  if search_type = "news" then
    let newsV ← py_get data "news"
    let sliced ← py_take (py_or newsV (.list [])) num
    let items ← py_iter sliced
    items.mapM searchNewsItem
  else
    let orgV ← py_get data "organic"
    let sliced ← py_take (py_or orgV (.list [])) num
    let items ← py_iter sliced
    items.mapM searchOrganicItem

/-- The success tail of the `search_web` branch (`backend/app/tools.py`
lines 310-350): mapped results plus optional answer box / knowledge graph. -/
def searchWebSuccess (data : PyVal) (search_type query : String) (num : Nat) :
    Except PyErr PyVal := do
  let results ← searchWebItems data search_type num
  let abV ← py_get data "answerBox"
  let kgV ← py_get data "knowledgeGraph"
  let answer_box := pick abV ["answer", "snippet", "title", "link"]
  let knowledge_graph := pick kgV ["title", "type", "description", "website", "imageUrl"]
  let out := [("ok", PyVal.bool true), ("type", PyVal.str search_type),
              ("query", PyVal.str query), ("results", PyVal.list results)]
  let out := if !answer_box.isEmpty then out ++ [("answer_box", PyVal.dict answer_box)]
             else out
  let out := if !knowledge_graph.isEmpty then
               out ++ [("knowledge_graph", PyVal.dict knowledge_graph)]
             else out
  return PyVal.dict out

/-- `run_tool` (`backend/app/tools.py` lines 168-352): string-keyed dispatch
over the registered tools, falling through to the unknown-tool payload. -/
def run_tool (env : Env) (tool_name : PyVal) (arguments : List (String × PyVal)) :
    ToolOut :=
  if tool_name = PyVal.str "create_note" then
    let title := pyStrip (py_str (argsGetD arguments "title" (.str "")))
    let content := pyStrip (py_str (argsGetD arguments "content" (.str "")))
    let tagsV := py_or (argsGet arguments "tags") (.list [])
    match py_iter tagsV with
    | .error e => ⟨.error e, env, []⟩
    | .ok tagsItems =>
      let tags := (tagsItems.map (fun t => pyStrip (py_str t))).filter (fun s => s ≠ "")
      if title = "" ∨ content = "" then
        ⟨.ok (errPayload "title and content are required"), env, []⟩
      else
        let note : NoteDoc := [("title", .str title), ("content", .str content),
                               ("tags", .list (tags.map PyVal.str)),
                               ("created_at", .datetime env.now)]
        let newId := env.nextIds.headD "000000000000000000000000"
        ⟨.ok (.dict [("ok", .bool true),
                     ("note", .dict (("id", .str newId) :: json_safe_dict note))]),
         { env with notes := env.notes ++ [("_id", .objectId newId) :: note],
                    nextIds := env.nextIds.tail },
         [DbOp.insert note]⟩
  else if tool_name = PyVal.str "search_notes" then
    let query := pyStrip (py_str (argsGetD arguments "query" (.str "")))
    match py_int (py_or (argsGet arguments "limit") (.int 10)) with
    | .error e => ⟨.error e, env, []⟩
    | .ok limit0 =>
      let limit := max 1 (min 50 limit0)
      if query = "" then ⟨.ok (errPayload "query is required"), env, []⟩
      else
        let docs := notesFind env.notes (fun doc => noteMatches doc query) limit
        ⟨.ok (.dict [("ok", .bool true), ("notes", .list (docs.map noteOut))]),
         env, [DbOp.findQuery query limit]⟩
  else if tool_name = PyVal.str "list_notes" then
    match py_int (py_or (argsGet arguments "limit") (.int 10)) with
    | .error e => ⟨.error e, env, []⟩
    | .ok limit0 =>
      let limit := max 1 (min 50 limit0)
      let docs := notesFind env.notes (fun _ => true) limit
      ⟨.ok (.dict [("ok", .bool true), ("notes", .list (docs.map noteOut))]),
       env, [DbOp.findAll limit]⟩
  else if tool_name = PyVal.str "get_note" then
    let note_id := pyStrip (py_str (argsGetD arguments "note_id" (.str "")))
    if !objectIdValid note_id then
      ⟨.ok (errPayload "invalid note_id"), env, []⟩
    else
      match findOneNote env.notes note_id with
      | Option.none => ⟨.ok (errPayload "not found"), env, [DbOp.findOne note_id]⟩
      | some doc =>
        ⟨.ok (.dict [("ok", .bool true), ("note", noteOut doc)]),
         env, [DbOp.findOne note_id]⟩
  else if tool_name = PyVal.str "get_server_time" then
    ⟨.ok (.dict [("ok", .bool true), ("utc", .str env.now.isoformat)]), env, []⟩
  else if tool_name = PyVal.str "search_web" then
    if keyUnset env.serper_api_key then
      ⟨.ok (errPayload "SERPER_API_KEY is not set (add it to backend/.env)."), env, []⟩
    else
      let query := pyStrip (py_str (py_or (argsGet arguments "query") (.str "")))
      if query = "" then ⟨.ok (errPayload "query is required"), env, []⟩
      else
        let st0 := pyLower (pyStrip (py_str (py_or (argsGet arguments "type") (.str "search"))))
        let search_type := if st0 = "search" ∨ st0 = "news" then st0 else "search"
        let num_results := clamp_int (argsGet arguments "num_results") 1 10 5
        match env.serperResponse with
        | .error exc => ⟨.ok (errPayload ("serper request failed: " ++ exc)), env, []⟩
        | .ok resp =>
          if 400 ≤ resp.status then
            ⟨.ok (.dict [("ok", .bool false), ("error", .str "serper returned an error"),
                         ("status", .int resp.status),
                         ("body", .str (trim_text (.str resp.text) 800))]), env, []⟩
          else
            match resp.jsonBody with
            | Option.none => ⟨.ok (errPayload "invalid serper json"), env, []⟩
            | some data =>
              match searchWebSuccess data search_type query num_results.toNat with
              | .error e => ⟨.error e, env, []⟩
              | .ok out => ⟨.ok out, env, []⟩
  else
    ⟨.ok (errPayload ("unknown tool: " ++ py_str tool_name)), env, []⟩

/-! ### The completion client (`backend/app/openrouter.py`) -/

/-- The distinct exception kinds that `create_chat_completion` can raise:
the single wrapped kind (`OpenRouterError`), the unwrapped transport
exceptions of `httpx`, and the unwrapped decode error of `.json()`. -/
inductive ChatErr where
  | openRouter (msg : String)
  | httpxError (msg : String)
  | jsonDecodeError (msg : String)
deriving DecidableEq, Repr

def isOpenRouterErr (x : Except ChatErr PyVal) : Bool :=
  match x with
  | .error (.openRouter _) => true
  | _ => false

/-- The provider settings read by `create_chat_completion`. -/
structure ORSettings where
  openrouter_api_key : Option String
  openrouter_model : String
deriving Repr

/-- `create_chat_completion` (`backend/app/openrouter.py` lines 17-63),
with the outbound HTTP call abstracted as its outcome `transport`:
`.error exc` is a raised `httpx` exception, `.ok resp` a response. -/
def create_chat_completion (settings : ORSettings)
    (transport : Except String HttpResp) : Except ChatErr PyVal :=
  if keyUnset settings.openrouter_api_key then
    .error (.openRouter
      "OPENROUTER_API_KEY is not set. Copy backend/.env.example to backend/.env and set it.")
  else
    match transport with
    | .error exc => .error (.httpxError exc)
    | .ok resp =>
      if 400 ≤ resp.status then
        .error (.openRouter ("OpenRouter error " ++ toString resp.status ++ ": " ++ resp.text))
      else
        match resp.jsonBody with
        | Option.none => .error (.jsonDecodeError "response body is not valid JSON")
        | some v => .ok v

/-! ### The orchestration loop (`backend/app/main.py` lines 191-244) -/

/-- Errors escaping `_run_llm_with_tools`: a provider-call exception or a
Python exception raised while handling a tool call. -/
inductive LoopErr where
  | provider (e : ChatErr)
  | py (e : PyErr)
deriving DecidableEq, Repr

def SYSTEM_PROMPT : String :=
  "You are a helpful assistant in a tool-calling playground.\n\nYou have access to tools for saving and searching notes in MongoDB, and searching Project Gutenberg for books.\nUse tools when it helps (e.g., when asked to remember something, store a note; when asked to recall, search/list notes).\n\nWhen you call tools, keep arguments minimal and valid JSON.\nAfter using tools, respond to the user with a short confirmation and the requested info.\n"

def systemMessage : PyVal :=
  .dict [("role", .str "system"), ("content", .str SYSTEM_PROMPT)]

def defaultAssistant : PyVal :=
  .dict [("role", .str "assistant"), ("content", .str "")]

/-- `(response.get("choices") or [{}])[0]`. -/
def extractChoice (response : PyVal) : Except PyErr PyVal := do
  let choicesV ← py_get response "choices"
  py_index0 (py_or choicesV (.list [PyVal.dict []]))

/-- The tool-call fan-out of one round (`backend/app/main.py` lines
219-241): for each request, extract id/name/raw arguments, parse, dispatch,
and build the tool-role message and the trace entry. Returns the tool
messages, the trace entries, and the note store afterwards. -/
def processToolCalls (env : Env) :
    List PyVal → Except PyErr (List PyVal × List PyVal × Env)
  | [] => .ok ([], [], env)
  | call :: rest =>
    match py_get call "id" with
    | .error e => .error e
    | .ok idV =>
      let tool_call_id := py_or idV (.str "")
      match py_get call "function" with
      | .error e => .error e
      | .ok fnV =>
        let fn := py_or fnV (.dict [])
        match py_get fn "name" with
        | .error e => .error e
        | .ok nameV =>
          let tool_name := py_or nameV (.str "")
          match py_get fn "arguments" with
          | .error e => .error e
          | .ok rawV =>
            let parsed := safe_parse_tool_arguments rawV
            let t := run_tool env tool_name parsed
            match t.result with
            | .error e => .error e
            | .ok result =>
              let entry := PyVal.dict [("tool_call", call),
                                       ("parsed_arguments", .dict parsed),
                                       ("result", result)]
              let msg := tool_result_message tool_call_id result
              match processToolCalls t.env rest with
              | .error e => .error e
              | .ok (msgs, trace, envF) => .ok (msg :: msgs, entry :: trace, envF)

/-- One reply-handling prefix of a round, as a predicate: does this
provider outcome carry a truthy `tool_calls` list (so the loop does not
break)? `false` also when the extraction itself would raise. -/
def replyRequestsTools (x : Except ChatErr PyVal) : Bool :=
  match x with
  | .error _ => false
  | .ok response =>
    match extractChoice response with
    | .error _ => false
    | .ok choice =>
      match py_get choice "message" with
      | .error _ => false
      | .ok mV =>
        let assistant := py_or mV defaultAssistant
        match py_get assistant "tool_calls" with
        | .error _ => false
        | .ok tcV => py_truthy (py_or tcV (.list []))

/-- The `for _ in range(6)` loop of `_run_llm_with_tools`. `provider r` is
the outcome of the round-`r` call to `create_chat_completion`; `fuel` is
the remaining budget, `round` the number of provider calls already made.
The returned `Nat` counts the rounds performed (loop instrumentation only —
the source returns just the messages and the trace). -/
def runRounds (provider : Nat → Except ChatErr PyVal) :
    Nat → Nat → Env → List PyVal → List PyVal →
    Except LoopErr (List PyVal × List PyVal × Env × Nat)
  | 0, round, env, msgs, trace => .ok (msgs, trace, env, round)
  | fuel + 1, round, env, msgs, trace =>
    match provider round with
    | .error e => .error (.provider e)
    | .ok response =>
      match extractChoice response with
      | .error e => .error (.py e)
      | .ok choice =>
        match py_get choice "message" with
        | .error e => .error (.py e)
        | .ok mV =>
          let assistant := py_or mV defaultAssistant
          let msgs := msgs ++ [assistant]
          match py_get assistant "tool_calls" with
          | .error e => .error (.py e)
          | .ok tcV =>
            let tool_calls := py_or tcV (.list [])
            if !py_truthy tool_calls then .ok (msgs, trace, env, round + 1)
            else
              match py_iter tool_calls with
              | .error e => .error (.py e)
              | .ok calls =>
                match processToolCalls env calls with
                | .error e => .error (.py e)
                | .ok (tmsgs, tentries, env2) =>
                  runRounds provider fuel (round + 1) env2 (msgs ++ tmsgs)
                    (trace ++ tentries)

/-- `_run_llm_with_tools` (`backend/app/main.py` lines 191-244): prepend
the system prompt, run at most 6 rounds, return the newly generated
messages (system prompt and caller input stripped), the tool trace, and —
as instrumentation — the number of rounds performed. -/
def run_llm_with_tools (env : Env) (provider : Nat → Except ChatErr PyVal)
    (messages : List PyVal) : Except LoopErr (List PyVal × List PyVal × Nat) :=
  let llm0 := systemMessage :: messages
  let initial_len := llm0.length
  match runRounds provider 6 0 env llm0 [] with
  | .error e => .error e
  | .ok (msgs, trace, _, rounds) => .ok (msgs.drop initial_len, trace, rounds)

/-! ### Concrete fixtures for witnesses and counterexamples -/

def dt0 : Dt := ⟨2025, 10, 12, 9, 30, 0, 0⟩

def env0 : Env :=
  { notes := [], nextIds := ["507f1f77bcf86cd799439011"], now := dt0,
    serper_api_key := Option.none, serper_gl := "us", serper_hl := "en",
    serperResponse := .error "connection refused" }

/-- A well-formed tool call for the side-effect-free `get_server_time` tool. -/
def timeCall : PyVal :=
  .dict [("id", .str "call_1"),
         ("function", .dict [("name", .str "get_server_time"),
                             ("arguments", .str "\x7b\x7d")])]

/-- A tool call whose arguments parse fine but whose `limit` value makes
`int()` raise inside the `search_notes` handler. -/
def badCall : PyVal :=
  .dict [("id", .str "call_9"),
         ("function", .dict [("name", .str "search_notes"),
                             ("arguments",
                              .str "\x7b\"query\": \"milk\", \"limit\": \"abc\"\x7d")])]

def replyWith (call : PyVal) : PyVal :=
  .dict [("choices", .list [.dict [("message",
    .dict [("role", .str "assistant"), ("content", PyVal.none),
           ("tool_calls", .list [call])])]])]

def providerTools : Nat → Except ChatErr PyVal := fun _ => .ok (replyWith timeCall)

def providerBad : Nat → Except ChatErr PyVal := fun _ => .ok (replyWith badCall)

def badLimitErr : PyErr := .valueError "invalid literal for int with base 10: abc"

def loopW : Except LoopErr (List PyVal × List PyVal × Nat) :=
  run_llm_with_tools env0 providerTools []

def loopW_out : List PyVal := match loopW with | .ok (o, _, _) => o | .error _ => []

def loopW_trace : List PyVal := match loopW with | .ok (_, t, _) => t | .error _ => []

def loopW_n : Nat := match loopW with | .ok (_, _, k) => k | .error _ => 0

def timeResult : PyVal := .dict [("ok", .bool true), ("utc", .str dt0.isoformat)]

def timeMsgs : List PyVal := [tool_result_message (.str "call_1") timeResult]

def timeEntries : List PyVal :=
  [.dict [("tool_call", timeCall), ("parsed_arguments", .dict []),
          ("result", timeResult)]]

def orSettings1 : ORSettings := ⟨some "test-key", "google/gemini-3-flash-preview"⟩

def serperItem : PyVal :=
  .dict [("title", .str "T"), ("link", .str "L"), ("snippet", .str "S"),
         ("position", .int 1)]

def envSerper : Env :=
  { env0 with
      serper_api_key := some "k",
      serperResponse := .ok ⟨200, "body", some (.dict [("organic", .list [serperItem])])⟩ }

def serperOut : PyVal :=
  .dict [("ok", .bool true), ("type", .str "search"), ("query", .str "lean"),
         ("results", .list [serperItem])]

/-! ### Theorems -/

theorem py_get_ok {v : PyVal} {k : String} {w : PyVal} (h : py_get v k = .ok w) :
    ∃ kvs, v = .dict kvs ∧ w = argsGet kvs k := by
  cases v <;> simp [py_get] at h
  case dict kvs => exact ⟨kvs, rfl, h.symm⟩

mutual
theorem json_safe_idem : ∀ v : PyVal, json_safe (json_safe v) = json_safe v
  | .none => rfl
  | .bool _ => rfl
  | .int _ => rfl
  | .float _ => rfl
  | .str _ => rfl
  | .objectId _ => rfl
  | .datetime _ => rfl
  | .list vs => by simp [json_safe, json_safe_list_idem vs]
  | .dict kvs => by simp [json_safe, json_safe_dict_idem kvs]

theorem json_safe_list_idem : ∀ vs : List PyVal,
    json_safe_list (json_safe_list vs) = json_safe_list vs
  | [] => rfl
  | v :: vs => by simp [json_safe_list, json_safe_idem v, json_safe_list_idem vs]

theorem json_safe_dict_idem : ∀ kvs : List (String × PyVal),
    json_safe_dict (json_safe_dict kvs) = json_safe_dict kvs
  | [] => rfl
  | (k, v) :: kvs => by simp [json_safe_dict, json_safe_idem v, json_safe_dict_idem kvs]
end

/-- C8: `toJsonSafe` (`_json_safe`) is idempotent — applying it twice
yields the same result as applying it once, for every input value. -/
theorem json_safe_idempotent (v : PyVal) : json_safe (json_safe v) = json_safe v :=
  json_safe_idem v

/-- C3: `safe_parse_tool_arguments` is total on strings and never raises:
a string parsing as a JSON object yields that mapping, a string that fails
to parse (including the empty string) yields the `invalid_json` sentinel, a
string parsing as non-object JSON yields the `expected_object` sentinel,
and a mapping input is passed through unchanged. -/
theorem safe_parse_tool_arguments_cases (s : String) (kvs : List (String × PyVal)) :
    safe_parse_tool_arguments (.dict kvs) = kvs
    ∧ (json_loads s = Option.none →
        safe_parse_tool_arguments (.str s) =
          [("_parse_error", .str "invalid_json"), ("_raw", .str s)])
    ∧ (∀ kvs2, json_loads s = some (.dict kvs2) →
        safe_parse_tool_arguments (.str s) = kvs2)
    ∧ (∀ w, json_loads s = some w → (∀ kvs2, w ≠ .dict kvs2) →
        safe_parse_tool_arguments (.str s) =
          [("_parse_error", .str "expected_object"), ("_raw", .str s)]) := by
  refine ⟨rfl, ?_, ?_, ?_⟩
  · intro h; simp [safe_parse_tool_arguments, h]
  · intro kvs2 h; simp [safe_parse_tool_arguments, h]
  · intro w h hw
    cases w <;> first
      | exact absurd rfl (hw _)
      | simp only [safe_parse_tool_arguments, h]

theorem safe_parse_tool_arguments_cases_witness :
    safe_parse_tool_arguments (.dict [("a", .int 1)]) = [("a", .int 1)]
    ∧ safe_parse_tool_arguments (.str "") =
        [("_parse_error", .str "invalid_json"), ("_raw", .str "")]
    ∧ safe_parse_tool_arguments (.str "\x7b\"a\": 1\x7d") = [("a", .int 1)]
    ∧ safe_parse_tool_arguments (.str "[1]") =
        [("_parse_error", .str "expected_object"), ("_raw", .str "[1]")] :=
  ⟨(safe_parse_tool_arguments_cases "" [("a", .int 1)]).1,
   (safe_parse_tool_arguments_cases "" []).2.1 (by rfl),
   (safe_parse_tool_arguments_cases "\x7b\"a\": 1\x7d" []).2.2.1 [("a", .int 1)] (by rfl),
   (safe_parse_tool_arguments_cases "[1]" []).2.2.2 (.list [.int 1]) (by rfl)
     (fun _ h => PyVal.noConfusion h)⟩

/-- C10: an argument value that is neither a mapping nor a string (null, a
number, a list, ...) is replaced by the empty mapping — the raw value is
discarded and no sentinel is recorded. -/
theorem safe_parse_tool_arguments_other (raw : PyVal)
    (hd : ∀ kvs, raw ≠ .dict kvs) (hs : ∀ s, raw ≠ .str s) :
    safe_parse_tool_arguments raw = [] := by
  cases raw <;> first | rfl | exact absurd rfl (hd _) | exact absurd rfl (hs _)

theorem safe_parse_tool_arguments_other_witness :
    safe_parse_tool_arguments PyVal.none = []
    ∧ safe_parse_tool_arguments (.int 3) = []
    ∧ safe_parse_tool_arguments (.list [.int 1]) = [] :=
  ⟨safe_parse_tool_arguments_other PyVal.none
     (fun _ h => PyVal.noConfusion h) (fun _ h => PyVal.noConfusion h),
   safe_parse_tool_arguments_other (.int 3)
     (fun _ h => PyVal.noConfusion h) (fun _ h => PyVal.noConfusion h),
   safe_parse_tool_arguments_other (.list [.int 1])
     (fun _ h => PyVal.noConfusion h) (fun _ h => PyVal.noConfusion h)⟩

/-- C7: `get_note` answers `{ok: false, error: "invalid note_id"}` for a
syntactically invalid identifier without issuing any store query, and
`{ok: false, error: "not found"}` for a well-formed identifier matching no
note; the two error payloads are distinct. -/
theorem get_note_error_cases (env : Env) (arguments : List (String × PyVal)) :
    (objectIdValid (pyStrip (py_str (argsGetD arguments "note_id" (.str "")))) = false →
      run_tool env (.str "get_note") arguments =
        ⟨.ok (errPayload "invalid note_id"), env, []⟩)
    ∧ (objectIdValid (pyStrip (py_str (argsGetD arguments "note_id" (.str "")))) = true →
       findOneNote env.notes (pyStrip (py_str (argsGetD arguments "note_id" (.str "")))) =
         Option.none →
      run_tool env (.str "get_note") arguments =
        ⟨.ok (errPayload "not found"), env,
         [DbOp.findOne (pyStrip (py_str (argsGetD arguments "note_id" (.str ""))))]⟩)
    ∧ errPayload "invalid note_id" ≠ errPayload "not found" := by
  refine ⟨?_, ?_, by decide⟩
  · intro h
    unfold run_tool
    rw [if_neg (by decide), if_neg (by decide), if_neg (by decide), if_pos rfl]
    simp [h]
  · intro h1 h2
    unfold run_tool
    rw [if_neg (by decide), if_neg (by decide), if_neg (by decide), if_pos rfl]
    simp [h1, h2]

theorem get_note_error_cases_witness :
    run_tool env0 (.str "get_note") [("note_id", .str "not-an-id")] =
      ⟨.ok (errPayload "invalid note_id"), env0, []⟩
    ∧ run_tool env0 (.str "get_note") [("note_id", .str "507f1f77bcf86cd799439099")] =
      ⟨.ok (errPayload "not found"), env0, [DbOp.findOne "507f1f77bcf86cd799439099"]⟩ :=
  ⟨(get_note_error_cases env0 [("note_id", .str "not-an-id")]).1 (by decide),
   (get_note_error_cases env0 [("note_id", .str "507f1f77bcf86cd799439099")]).2.1
     (by decide) (by rfl)⟩

/-- C4 counterexample: the claim says `run_tool` never raises past its
boundary, but dispatching `search_notes` with the model-producible argument
mapping `{query: "milk", limit: "abc"}` raises `ValueError` out of
`run_tool` — no handler-level catch exists on this path. -/
theorem run_tool_raises_on_bad_limit :
    (run_tool env0 (.str "search_notes")
        [("query", .str "milk"), ("limit", .str "abc")]).result =
      .error badLimitErr := by rfl

/-- C4 (amended): a tool name matching no registered tool returns the
payload `{ok: false, error: "unknown tool: <name>"}` without raising and
without touching the store; handler-level faults inside registered-tool
branches, however, are not caught and can propagate (see the
counterexample). -/
theorem run_tool_unknown_tool (env : Env) (arguments : List (String × PyVal))
    (name : PyVal)
    (h1 : name ≠ .str "create_note") (h2 : name ≠ .str "search_notes")
    (h3 : name ≠ .str "list_notes") (h4 : name ≠ .str "get_note")
    (h5 : name ≠ .str "get_server_time") (h6 : name ≠ .str "search_web") :
    run_tool env name arguments =
      ⟨.ok (errPayload ("unknown tool: " ++ py_str name)), env, []⟩ := by
  unfold run_tool
  rw [if_neg h1, if_neg h2, if_neg h3, if_neg h4, if_neg h5, if_neg h6]

theorem run_tool_unknown_tool_witness :
    run_tool env0 (.str "banana") [("x", .int 1)] =
      ⟨.ok (errPayload ("unknown tool: " ++ py_str (.str "banana"))), env0, []⟩ :=
  run_tool_unknown_tool env0 [("x", .int 1)] (.str "banana")
    (by decide) (by decide) (by decide) (by decide) (by decide) (by decide)

/-- C5 counterexample: the claim says malformed numeric limits are silently
clamped to the default, but `list_notes` with `limit = "abc"` raises
`ValueError` out of the handler instead. -/
theorem list_notes_raises_on_bad_limit :
    (run_tool env0 (.str "list_notes") [("limit", .str "abc")]).result =
      .error badLimitErr := by rfl

/-- C5 (amended): `_clamp_int` (used by `search_web` for `num_results`)
keeps its result within `[minimum, maximum]` and falls back to the default
when the value does not parse; `search_notes` and `list_notes` clamp a
parseable limit into `[1, 50]` — observable in the limit each records on
its store query — and use the default 10 when the limit is absent or
falsy, but leave the parse failure of a truthy malformed value uncaught
(see the counterexample). -/
theorem limit_clamping (v : PyVal) (mi ma d : Int) (env : Env)
    (arguments : List (String × PyVal)) :
    (mi ≤ ma → mi ≤ d → d ≤ ma →
      mi ≤ clamp_int v mi ma d ∧ clamp_int v mi ma d ≤ ma)
    ∧ (∀ e, py_int v = .error e → clamp_int v mi ma d = d)
    ∧ (∀ n, py_int (py_or (argsGet arguments "limit") (.int 10)) = .ok n →
        (run_tool env (.str "list_notes") arguments).ops =
          [DbOp.findAll (max 1 (min 50 n))]
        ∧ (pyStrip (py_str (argsGetD arguments "query" (.str ""))) ≠ "" →
           (run_tool env (.str "search_notes") arguments).ops =
             [DbOp.findQuery (pyStrip (py_str (argsGetD arguments "query" (.str ""))))
               (max 1 (min 50 n))]))
    ∧ (py_truthy (argsGet arguments "limit") = false →
        (run_tool env (.str "list_notes") arguments).ops = [DbOp.findAll 10]
        ∧ (pyStrip (py_str (argsGetD arguments "query" (.str ""))) ≠ "" →
           (run_tool env (.str "search_notes") arguments).ops =
             [DbOp.findQuery (pyStrip (py_str (argsGetD arguments "query" (.str ""))))
               10])) := by
  refine ⟨?_, ?_, ?_, ?_⟩
  · intro hma hdl hdu
    unfold clamp_int
    split
    · exact ⟨hdl, hdu⟩
    · constructor <;> omega
  · intro e he; simp [clamp_int, he]
  · intro n hn
    constructor
    · unfold run_tool
      rw [if_neg (by decide), if_neg (by decide), if_pos rfl]
      simp [hn]
    · intro hq
      unfold run_tool
      rw [if_neg (by decide), if_pos rfl]
      simp [hn, hq]
  · intro ht
    have hn : py_int (py_or (argsGet arguments "limit") (.int 10)) = .ok 10 := by
      simp [py_or, ht, py_int]
    constructor
    · unfold run_tool
      rw [if_neg (by decide), if_neg (by decide), if_pos rfl]
      simp [hn]
    · intro hq
      unfold run_tool
      rw [if_neg (by decide), if_pos rfl]
      simp [hn, hq]

theorem limit_clamping_witness :
    (1 ≤ clamp_int (.int 999) 1 10 5 ∧ clamp_int (.int 999) 1 10 5 ≤ 10)
    ∧ clamp_int (.str "abc") 1 10 5 = 5
    ∧ (run_tool env0 (.str "list_notes") [("limit", .int 999)]).ops =
        [DbOp.findAll (max 1 (min 50 999))]
    ∧ (run_tool env0 (.str "search_notes")
        [("query", .str "milk"), ("limit", .int 999)]).ops =
        [DbOp.findQuery "milk" (max 1 (min 50 999))]
    ∧ (run_tool env0 (.str "list_notes") ([] : List (String × PyVal))).ops =
        [DbOp.findAll 10]
    ∧ (run_tool env0 (.str "search_notes") [("query", .str "milk")]).ops =
        [DbOp.findQuery "milk" 10] :=
  ⟨(limit_clamping (.int 999) 1 10 5 env0 []).1 (by decide) (by decide) (by decide),
   (limit_clamping (.str "abc") 1 10 5 env0 []).2.1 badLimitErr (by rfl),
   ((limit_clamping PyVal.none 1 10 5 env0 [("limit", .int 999)]).2.2.1 999
      (by rfl)).1,
   ((limit_clamping PyVal.none 1 10 5 env0
      [("query", .str "milk"), ("limit", .int 999)]).2.2.1 999 (by rfl)).2 (by decide),
   ((limit_clamping PyVal.none 1 10 5 env0 []).2.2.2 (by rfl)).1,
   ((limit_clamping PyVal.none 1 10 5 env0 [("query", .str "milk")]).2.2.2
      (by rfl)).2 (by decide)⟩

/-- C6 counterexample: the claim says a failing transport call is surfaced
as the single `OpenRouterError` kind, but `create_chat_completion` does not
wrap the transport call — the `httpx` exception propagates as itself, not
as `OpenRouterError`. -/
theorem transport_error_not_openrouter :
    create_chat_completion orSettings1 (.error "connection refused") =
      .error (.httpxError "connection refused")
    ∧ isOpenRouterErr (create_chat_completion orSettings1
        (.error "connection refused")) = false := ⟨rfl, rfl⟩

/-- C6 (amended): `create_chat_completion` raises `OpenRouterError` in
exactly two cases — a missing/unset credential (failing fast, with the same
outcome whatever the transport would have done) and a non-success HTTP
status (whose message carries the provider's response body); a transport
failure propagates as the transport's own exception, and on success the
parsed response is returned unmodified. -/
theorem create_chat_completion_cases (settings : ORSettings)
    (transport : Except String HttpResp) (resp : HttpResp) (exc : String) (v : PyVal) :
    (keyUnset settings.openrouter_api_key = true →
      create_chat_completion settings transport =
        .error (.openRouter
          "OPENROUTER_API_KEY is not set. Copy backend/.env.example to backend/.env and set it."))
    ∧ (keyUnset settings.openrouter_api_key = false → transport = .ok resp →
       400 ≤ resp.status →
      create_chat_completion settings transport =
        .error (.openRouter ("OpenRouter error " ++ toString resp.status ++ ": " ++
          resp.text)))
    ∧ (keyUnset settings.openrouter_api_key = false → transport = .error exc →
      create_chat_completion settings transport = .error (.httpxError exc))
    ∧ (keyUnset settings.openrouter_api_key = false → transport = .ok resp →
       resp.status < 400 → resp.jsonBody = some v →
      create_chat_completion settings transport = .ok v) := by
  refine ⟨?_, ?_, ?_, ?_⟩
  · intro h; simp [create_chat_completion, h]
  · intro h ht hs
    subst ht
    simp [create_chat_completion, h, hs]
  · intro h ht
    subst ht
    simp [create_chat_completion, h]
  · intro h ht hs hb
    subst ht
    simp [create_chat_completion, h, Nat.not_le.mpr hs, hb]

theorem create_chat_completion_cases_witness :
    create_chat_completion ⟨Option.none, "google/gemini-3-flash-preview"⟩
        (.ok ⟨200, "", some (.dict [])⟩) =
      .error (.openRouter
        "OPENROUTER_API_KEY is not set. Copy backend/.env.example to backend/.env and set it.")
    ∧ create_chat_completion orSettings1 (.ok ⟨401, "bad key", some (.dict [])⟩) =
      .error (.openRouter ("OpenRouter error " ++ toString 401 ++ ": " ++ "bad key"))
    ∧ create_chat_completion orSettings1 (.error "timeout") =
      .error (.httpxError "timeout")
    ∧ create_chat_completion orSettings1
        (.ok ⟨200, "x", some (.dict [("choices", .list [])])⟩) =
      .ok (.dict [("choices", .list [])]) :=
  ⟨(create_chat_completion_cases ⟨Option.none, "google/gemini-3-flash-preview"⟩
      (.ok ⟨200, "", some (.dict [])⟩) ⟨200, "", some (.dict [])⟩ "" PyVal.none).1 rfl,
   (create_chat_completion_cases orSettings1 (.ok ⟨401, "bad key", some (.dict [])⟩)
      ⟨401, "bad key", some (.dict [])⟩ "" PyVal.none).2.1 rfl rfl (by decide),
   (create_chat_completion_cases orSettings1 (.error "timeout")
      ⟨200, "", Option.none⟩ "timeout" PyVal.none).2.2.1 rfl rfl,
   (create_chat_completion_cases orSettings1
      (.ok ⟨200, "x", some (.dict [("choices", .list [])])⟩)
      ⟨200, "x", some (.dict [("choices", .list [])])⟩ ""
      (.dict [("choices", .list [])])).2.2.2 rfl rfl (by decide) rfl⟩

theorem processToolCalls_cons_ok {env : Env} {call : PyVal} {rest msgs trace : List PyVal}
    {envF : Env} (h : processToolCalls env (call :: rest) = .ok (msgs, trace, envF)) :
    ∃ kvs parsed result env2 msgs2 trace2,
      call = PyVal.dict kvs ∧
      msgs = tool_result_message (py_or (argsGet kvs "id") (.str "")) result :: msgs2 ∧
      trace = PyVal.dict [("tool_call", call), ("parsed_arguments", .dict parsed),
                          ("result", result)] :: trace2 ∧
      processToolCalls env2 rest = .ok (msgs2, trace2, envF) := by
  simp only [processToolCalls] at h
  split at h
  · exact Except.noConfusion h
  next idV hid =>
    split at h
    · exact Except.noConfusion h
    next fnV hfn =>
      split at h
      · exact Except.noConfusion h
      next nameV hname =>
        split at h
        · exact Except.noConfusion h
        next rawV hraw =>
          split at h
          · exact Except.noConfusion h
          next result hres =>
            split at h
            · exact Except.noConfusion h
            next msgs2 trace2 env2 hrest =>
              obtain ⟨kvs, hcall, hidv⟩ := py_get_ok hid
              simp only [Except.ok.injEq, Prod.mk.injEq] at h
              obtain ⟨h1, h2, h3⟩ := h
              subst hcall
              rw [h3] at hrest
              exact ⟨kvs, _, result, _, msgs2, trace2, rfl,
                     by rw [← h1, hidv], by rw [← h2], hrest⟩

/-- C2 counterexample: the claim says every tool-call round appends exactly
one tool-role message and one trace entry per request, but a single request
with a malformed `limit` argument makes the fan-out raise `ValueError`,
appending nothing. -/
theorem process_tool_calls_raises :
    processToolCalls env0 [badCall] = .error badLimitErr := by rfl

/-- C2 (amended): whenever the tool-call fan-out of a round completes
without a raised fault, it appends exactly one tool-role message per
tool-call request, in request order, each carrying that request's
correlation id, and records exactly one `{tool_call, parsed_arguments,
result}` trace entry per request; a raised handler fault instead aborts the
round (see the counterexample). -/
theorem process_tool_calls_per_request (calls : List PyVal) :
    ∀ (env : Env) (msgs tr : List PyVal) (envF : Env),
    processToolCalls env calls = .ok (msgs, tr, envF) →
    msgs.length = calls.length ∧ tr.length = calls.length ∧
    ∀ i, i < calls.length →
      ∃ call kvs parsed result,
        calls[i]? = some call ∧ call = PyVal.dict kvs ∧
        msgs[i]? = some (tool_result_message (py_or (argsGet kvs "id") (.str ""))
          result) ∧
        tr[i]? = some (.dict [("tool_call", call),
                              ("parsed_arguments", .dict parsed),
                              ("result", result)]) := by
  induction calls with
  | nil =>
    intro env msgs tr envF h
    simp only [processToolCalls, Except.ok.injEq, Prod.mk.injEq] at h
    obtain ⟨h1, h2, h3⟩ := h
    subst h1; subst h2
    exact ⟨rfl, rfl, fun i hi => absurd hi (by simp)⟩
  | cons call rest ih =>
    intro env msgs tr envF h
    obtain ⟨kvs, parsed, result, env2, msgs2, trace2, hcall, hmsgs, htrace, hrest⟩ :=
      processToolCalls_cons_ok h
    obtain ⟨hlen1, hlen2, hidx⟩ := ih env2 msgs2 trace2 envF hrest
    subst hmsgs; subst htrace
    refine ⟨by simp [hlen1], by simp [hlen2], ?_⟩
    intro i hi
    cases i with
    | zero => exact ⟨call, kvs, parsed, result, by simp, hcall, by simp, by simp⟩
    | succ i =>
      have hi2 : i < rest.length := by simpa using hi
      obtain ⟨c, kvs2, p2, r2, hc, hck, hm, ht⟩ := hidx i hi2
      exact ⟨c, kvs2, p2, r2, by simpa using hc, hck, by simpa using hm,
             by simpa using ht⟩

theorem process_tool_calls_per_request_witness :
    timeMsgs.length = [timeCall].length ∧ timeEntries.length = [timeCall].length :=
  ⟨(process_tool_calls_per_request [timeCall] env0 timeMsgs timeEntries env0 (by rfl)).1,
   (process_tool_calls_per_request [timeCall] env0 timeMsgs timeEntries env0
     (by rfl)).2.1⟩

theorem runRounds_rounds_le (p : Nat → Except ChatErr PyVal) :
    ∀ (fuel round : Nat) (env : Env) (msgs tr m t : List PyVal) (e : Env) (n : Nat),
      runRounds p fuel round env msgs tr = .ok (m, t, e, n) → n ≤ round + fuel := by
  intro fuel
  induction fuel with
  | zero =>
    intro round env msgs tr m t e n h
    simp only [runRounds, Except.ok.injEq, Prod.mk.injEq] at h
    omega
  | succ fuel ih =>
    intro round env msgs tr m t e n h
    simp only [runRounds] at h
    split at h
    · exact Except.noConfusion h
    next response hp =>
      split at h
      · exact Except.noConfusion h
      next choice hc =>
        split at h
        · exact Except.noConfusion h
        next mV hm =>
          split at h
          · exact Except.noConfusion h
          next tcV htc =>
            split at h
            · simp only [Except.ok.injEq, Prod.mk.injEq] at h
              omega
            · split at h
              · exact Except.noConfusion h
              next calls hit =>
                split at h
                · exact Except.noConfusion h
                next tmsgs tentries env2 hptc =>
                  have := ih (round + 1) env2 _ _ m t e n h
                  omega

theorem runRounds_rounds_exact (p : Nat → Except ChatErr PyVal) :
    ∀ (fuel round : Nat) (env : Env) (msgs tr m t : List PyVal) (e : Env) (n : Nat),
      (∀ r, round ≤ r → r < round + fuel → replyRequestsTools (p r) = true) →
      runRounds p fuel round env msgs tr = .ok (m, t, e, n) → n = round + fuel := by
  intro fuel
  induction fuel with
  | zero =>
    intro round env msgs tr m t e n _ h
    simp only [runRounds, Except.ok.injEq, Prod.mk.injEq] at h
    omega
  | succ fuel ih =>
    intro round env msgs tr m t e n hreq h
    simp only [runRounds] at h
    split at h
    · exact Except.noConfusion h
    next response hp =>
      split at h
      · exact Except.noConfusion h
      next choice hc =>
        split at h
        · exact Except.noConfusion h
        next mV hm =>
          split at h
          · exact Except.noConfusion h
          next tcV htc =>
            split at h
            next hcond =>
              have hr := hreq round (Nat.le_refl _) (by omega)
              simp only [replyRequestsTools, hp, hc, hm, htc] at hr
              simp [hr] at hcond
            next hcond =>
              split at h
              · exact Except.noConfusion h
              next calls hit =>
                split at h
                · exact Except.noConfusion h
                next tmsgs tentries env2 hptc =>
                  have := ih (round + 1) env2 _ _ m t e n
                    (fun r h1 h2 => hreq r (by omega) (by omega)) h
                  omega

/-- C1 counterexample: the claim says a provider whose reply carries
tool-call requests in every round forces exactly 6 rounds with a normal
return, but a provider that always requests `search_notes` with a malformed
`limit` makes the loop raise in its first round instead. -/
theorem loop_raises_despite_tool_rounds :
    replyRequestsTools (providerBad 0) = true
    ∧ replyRequestsTools (providerBad 5) = true
    ∧ run_llm_with_tools env0 providerBad [] = .error (.py badLimitErr) :=
  ⟨rfl, rfl, rfl⟩

/-- C1 (amended): the orchestration loop performs at most 6 rounds for
every input conversation; when the provider's reply carries tool-call
requests in every round and no dispatched tool call raises, the loop
performs exactly 6 rounds and returns the accumulated messages and trace
normally — no error is raised for exhausting the budget. (A raised handler
fault aborts the loop early instead; see the counterexample.) -/
theorem run_llm_round_budget (env : Env) (provider : Nat → Except ChatErr PyVal)
    (messages : List PyVal) :
    (∀ out tr n, run_llm_with_tools env provider messages = .ok (out, tr, n) → n ≤ 6)
    ∧ ((∀ r, r < 6 → replyRequestsTools (provider r) = true) →
       ∀ out tr n, run_llm_with_tools env provider messages = .ok (out, tr, n) →
         n = 6) := by
  constructor
  · intro out tr n h
    simp only [run_llm_with_tools] at h
    split at h
    · exact Except.noConfusion h
    next m t e k heq =>
      simp only [Except.ok.injEq, Prod.mk.injEq] at h
      obtain ⟨-, -, hk⟩ := h
      subst hk
      have := runRounds_rounds_le provider 6 0 env _ [] m t e k heq
      omega
  · intro hreq out tr n h
    simp only [run_llm_with_tools] at h
    split at h
    · exact Except.noConfusion h
    next m t e k heq =>
      simp only [Except.ok.injEq, Prod.mk.injEq] at h
      obtain ⟨-, -, hk⟩ := h
      subst hk
      have := runRounds_rounds_exact provider 6 0 env _ [] m t e k
        (fun r _ h2 => hreq r (by omega)) heq
      omega

theorem run_llm_round_budget_witness : loopW_n ≤ 6 ∧ loopW_n = 6 :=
  ⟨(run_llm_round_budget env0 providerTools []).1 loopW_out loopW_trace loopW_n
     (by rfl),
   (run_llm_round_budget env0 providerTools []).2 (by decide) loopW_out loopW_trace
     loopW_n (by rfl)⟩
theorem except_bind_ok {α β : Type} {x : Except PyErr α} {f : α → Except PyErr β}
    {b : β} (h : x >>= f = .ok b) : ∃ a, x = .ok a ∧ f a = .ok b := by
  cases x with
  | error e => simp [Bind.bind, Except.bind] at h
  | ok a => exact ⟨a, rfl, by simpa [Bind.bind, Except.bind] using h⟩

theorem mapM_ok_length {α β : Type} (f : α → Except PyErr β) :
    ∀ (l : List α) (rs : List β), l.mapM f = .ok rs → rs.length = l.length := by
  intro l
  induction l with
  | nil =>
    intro rs h
    simp only [List.mapM_nil, pure, Except.pure, Except.ok.injEq] at h
    simp [← h]
  | cons a l ih =>
    intro rs h
    rw [List.mapM_cons] at h
    obtain ⟨b, hb, h2⟩ := except_bind_ok h
    obtain ⟨bs, hbs, h3⟩ := except_bind_ok h2
    simp only [pure, Except.pure, Except.ok.injEq] at h3
    subst h3
    simp [ih bs hbs]

theorem py_take_iter_length {v : PyVal} {num : Nat} {sliced : PyVal}
    {items : List PyVal} (h1 : py_take v num = .ok sliced)
    (h2 : py_iter sliced = .ok items) : items.length ≤ num := by
  cases v <;> simp [py_take] at h1
  case list vs =>
    subst h1
    simp only [py_iter, Except.ok.injEq] at h2
    subst h2
    simp [List.length_take]
  case str s =>
    subst h1
    simp only [py_iter, Except.ok.injEq] at h2
    subst h2
    simp [strTake, List.length_take]

theorem searchWebItems_length {data : PyVal} {st : String} {num : Nat}
    {rs : List PyVal} (h : searchWebItems data st num = .ok rs) : rs.length ≤ num := by
  simp only [searchWebItems] at h
  split at h <;>
  · obtain ⟨newsV, h1, h2⟩ := except_bind_ok h
    obtain ⟨sliced, h3, h4⟩ := except_bind_ok h2
    obtain ⟨items, h5, h6⟩ := except_bind_ok h4
    have hlen := mapM_ok_length _ items rs h6
    have := py_take_iter_length h3 h5
    omega

theorem clamp_int_le {v : PyVal} {mi ma d : Int} (hma : mi ≤ ma) (hd : d ≤ ma) :
    clamp_int v mi ma d ≤ ma := by
  unfold clamp_int
  split
  · exact hd
  · omega

theorem search_web_results_capped {env : Env} {arguments : List (String × PyVal)}
    {out : PyVal} {env2 : Env} {ops : List DbOp}
    (h : run_tool env (.str "search_web") arguments = ⟨.ok out, env2, ops⟩) :
    ∀ kvs rs, out = .dict kvs → kvs.lookup "results" = some (.list rs) →
      rs.length ≤ 10 := by
  intro kvs rs hout hlook
  subst hout
  unfold run_tool at h
  rw [if_neg (by decide), if_neg (by decide), if_neg (by decide), if_neg (by decide),
      if_neg (by decide), if_pos rfl] at h
  dsimp only at h
  split at h
  case isTrue =>
    simp only [ToolOut.mk.injEq, Except.ok.injEq, errPayload, PyVal.dict.injEq] at h
    obtain ⟨h1, -, -⟩ := h
    subst h1
    simp [List.lookup] at hlook
  case isFalse =>
    split at h
    case isTrue =>
      simp only [ToolOut.mk.injEq, Except.ok.injEq, errPayload, PyVal.dict.injEq] at h
      obtain ⟨h1, -, -⟩ := h
      subst h1
      simp [List.lookup] at hlook
    case isFalse =>
      split at h
      case h_1 exc hresp =>
        simp only [ToolOut.mk.injEq, Except.ok.injEq, errPayload, PyVal.dict.injEq] at h
        obtain ⟨h1, -, -⟩ := h
        subst h1
        simp [List.lookup] at hlook
      case h_2 resp hresp =>
        split at h
        case isTrue =>
          simp only [ToolOut.mk.injEq, Except.ok.injEq, PyVal.dict.injEq] at h
          obtain ⟨h1, -, -⟩ := h
          subst h1
          simp [List.lookup] at hlook
        case isFalse =>
          split at h
          case h_1 hbody =>
            simp only [ToolOut.mk.injEq, Except.ok.injEq, errPayload, PyVal.dict.injEq] at h
            obtain ⟨h1, -, -⟩ := h
            subst h1
            simp [List.lookup] at hlook
          case h_2 data hbody =>
            split at h
            case h_1 e hsw => simp at h
            case h_2 outV hsw =>
              simp only [ToolOut.mk.injEq, Except.ok.injEq] at h
              obtain ⟨h1, -, -⟩ := h
              simp only [searchWebSuccess] at hsw
              obtain ⟨results, hres, hsw2⟩ := except_bind_ok hsw
              obtain ⟨abV, hab, hsw3⟩ := except_bind_ok hsw2
              obtain ⟨kgV, hkg, hsw4⟩ := except_bind_ok hsw3
              simp only [pure, Except.pure, Except.ok.injEq] at hsw4
              rw [← hsw4] at h1
              have hle := searchWebItems_length hres
              have hcap : clamp_int (argsGet arguments "num_results") 1 10 5 ≤ 10 :=
                clamp_int_le (by omega) (by omega)
              split at h1 <;> split at h1 <;>
              · simp only [PyVal.dict.injEq] at h1
                subst h1
                simp only [List.lookup, List.cons_append, List.nil_append] at hlook
                simp at hlook
                subst hlook
                omega

/-- C9: every successful `search_web` invocation returns at most 10
results, and `_trim_text` enforces the per-field character caps: a stripped
text within the limit is returned unchanged (no ellipsis appended), while a
longer one is cut to `max_len - 1` characters and suffixed with the
ellipsis marker, for exactly `max_len` characters. -/
theorem search_web_size_caps (value : PyVal) (max_len : Nat) (env : Env)
    (arguments : List (String × PyVal)) (out : PyVal) (env2 : Env) (ops : List DbOp) :
    ((pyStrip (py_str (py_or value (.str "")))).length ≤ max_len →
      trim_text value max_len = pyStrip (py_str (py_or value (.str ""))))
    ∧ (1 ≤ max_len → max_len < (pyStrip (py_str (py_or value (.str "")))).length →
      trim_text value max_len =
        strTake (pyStrip (py_str (py_or value (.str "")))) (max_len - 1) ++ "…"
      ∧ (trim_text value max_len).length = max_len)
    ∧ (run_tool env (.str "search_web") arguments = ⟨.ok out, env2, ops⟩ →
      ∀ kvs rs, out = .dict kvs → kvs.lookup "results" = some (.list rs) →
        rs.length ≤ 10) := by
  refine ⟨?_, ?_, fun h => search_web_results_capped h⟩
  · intro hle; simp [trim_text, hle]
  · intro h1 hlt
    have hgt : ¬ (pyStrip (py_str (py_or value (.str "")))).length ≤ max_len := by
      omega
    refine ⟨by simp [trim_text, hgt], ?_⟩
    simp only [trim_text, hgt, if_false]
    rw [String.length_append]
    have ht : (strTake (pyStrip (py_str (py_or value (.str "")))) (max_len - 1)).length
        = max_len - 1 := by
      show ((pyStrip (py_str (py_or value (.str "")))).toList.take
        (max_len - 1)).length = max_len - 1
      rw [List.length_take]
      have hcount : (pyStrip (py_str (py_or value (.str "")))).toList.length
          = (pyStrip (py_str (py_or value (.str "")))).length := rfl
      omega
    have he : ("…" : String).length = 1 := rfl
    omega

theorem search_web_size_caps_witness :
    trim_text (.str "ab") 5 = pyStrip (py_str (py_or (.str "ab") (.str "")))
    ∧ trim_text (.str "abcdefgh") 5 =
        strTake (pyStrip (py_str (py_or (.str "abcdefgh") (.str "")))) 4 ++ "…"
    ∧ (trim_text (.str "abcdefgh") 5).length = 5
    ∧ ([serperItem] : List PyVal).length ≤ 10 :=
  ⟨(search_web_size_caps (.str "ab") 5 env0 [] PyVal.none env0 []).1 (by decide),
   ((search_web_size_caps (.str "abcdefgh") 5 env0 [] PyVal.none env0 []).2.1
      (by decide) (by decide)).1,
   ((search_web_size_caps (.str "abcdefgh") 5 env0 [] PyVal.none env0 []).2.1
      (by decide) (by decide)).2,
   (search_web_size_caps PyVal.none 0 envSerper [("query", .str "lean")] serperOut
      envSerper []).2.2 (by rfl) _ [serperItem] rfl (by rfl)⟩
